import Mathlib

/-!
Verification of `homework.py`, a polling bot that watches a review-tracking
API for homework-status changes and forwards notifications through a
messaging client.  The Python source is embedded shallowly: each Python
function becomes a Lean function over an explicit model of JSON-like
values, HTTP outcomes and log output; the mutable closure variable of the
deduplication decorator and the loop state of `main` become explicit state
passed through the functions.
-/

set_option autoImplicit false

namespace Homework

/-- JSON-like values, the payloads flowing between the tracking API and the
validation code (`dict`, `list`, `str`, `int`, `bool`, `None` in Python). -/
inductive Value where
  | str (s : String)
  | int (n : Int)
  | bool (b : Bool)
  | list (xs : List Value)
  | dict (kvs : List (String × Value))
  | null
deriving Repr

/-- Python truthiness (`if homework:`) for the modelled values: empty
strings, zero, empty lists, empty dicts and `None` are falsy. -/
def truthy : Value → Bool
  | .str s => !s.isEmpty
  | .int n => n != 0
  | .bool b => b
  | .list xs => !xs.isEmpty
  | .dict kvs => !kvs.isEmpty
  | .null => false

/-- Exception kinds raised by the stages of the program.  `typeError`,
`keyError` and `valueError` model the built-in Python exceptions raised by
`check_response` and `parse_status`; `apiRequestError` models
`exceptions.APIRequestError` raised by `get_api_answer`.  All of them are
subclasses of Python's `Exception`. -/
inductive Err where
  | typeError (msg : String)
  | keyError (msg : String)
  | valueError (msg : String)
  | apiRequestError (msg : String)
deriving Repr

/-- Modelled from the spec: the repository's `exceptions` module (defining
`HomeworkStatusError` and `APIRequestError`) is not among the sources, only
its uses are.  Per the spec's error taxonomy, the tracking-client error is
the homework-status error kind that `main` handles with its first, specific
`except` clause; the built-in exceptions are not. -/
def Err.isHomeworkStatusError : Err → Bool
  | .apiRequestError _ => true
  | _ => false

/-- `str(e)` of a raised exception, as interpolated into the controller's
f-strings: the message the exception was constructed with. -/
def Err.text : Err → String
  | .typeError m => m
  | .keyError m => m
  | .valueError m => m
  | .apiRequestError m => m

/-- Severities used by the program's `logging` calls. -/
inductive LogLevel where
  | debug
  | info
  | error
  | critical
deriving Repr

/-- One emitted log record. -/
structure LogEntry where
  level : LogLevel
  msg : String
deriving Repr

abbrev Logs := List LogEntry

/-- `RETRY_PERIOD = 600`. -/
def RETRY_PERIOD : Int := 600

/-- `HOMEWORK_VERDICTS`: the fixed status-to-verdict mapping. -/
def HOMEWORK_VERDICTS : List (String × String) :=
  [("approved", "Работа проверена: ревьюеру всё понравилось. Ура!"),
   ("reviewing", "Работа взята на проверку ревьюером."),
   ("rejected", "Работа проверена: у ревьюера есть замечания.")]

/-- `d[k]` lookup / `k in d` membership on a modelled Python dict. -/
def lookupKey (kvs : List (String × Value)) (k : String) : Option Value :=
  (kvs.find? (fun p => p.1 == k)).map Prod.snd

/-- `HOMEWORK_VERDICTS[s]` lookup. -/
def lookupVerdict (s : String) : Option String :=
  (HOMEWORK_VERDICTS.find? (fun p => p.1 == s)).map Prod.snd

/-- The three environment credentials read at module load
(`PRACTICUM_TOKEN`, `TELEGRAM_TOKEN`, `TELEGRAM_CHAT_ID`); a missing
variable is modelled by the empty string, as in the source's
`env_variables.get(...) or ''`. -/
structure Config where
  PRACTICUM_TOKEN : String
  TELEGRAM_TOKEN : String
  TELEGRAM_CHAT_ID : String
deriving Repr

/-- `all([PRACTICUM_TOKEN, TELEGRAM_TOKEN, TELEGRAM_CHAT_ID])`: all three
credential strings are non-empty (Python truthiness of `str`). -/
def tokensOk (cfg : Config) : Bool :=
  !cfg.PRACTICUM_TOKEN.isEmpty && !cfg.TELEGRAM_TOKEN.isEmpty
    && !cfg.TELEGRAM_CHAT_ID.isEmpty

/-- `check_tokens`: `none` when all credentials are present, otherwise the
critical log plus the non-zero exit code of `sys.exit(<string>)`. -/
def check_tokens (cfg : Config) : Option (Logs × Nat) :=
  if tokensOk cfg then none
  else some ([⟨.critical, "Необходимо указать все переменные окружения"⟩], 1)

/-- The inner `send_message`: invokes `bot.send_message` once; a
`telegram.TelegramError` (send failure, `sendOk = false`) is caught and
logged, never propagated.  Returns the emitted logs; the exception detail
interpolated into the error log is elided. -/
def send_message_raw (sendOk : Bool) (message : String) : Logs :=
  if sendOk then [⟨.debug, ("Сообщение отправлено в Telegram: " ++ message)⟩]
  else [⟨.error, "Ошибка отправки сообщения в Telegram"⟩]

/-- Outcome of one deduplicated delivery attempt: the new value of the
decorator's `last_message` closure variable, the number of underlying
`bot.send_message` invocations, and the logs. -/
structure SendResult where
  last : Option String
  sends : Nat
  logs : Logs
deriving Repr

/-- `send_message` as wrapped by `deduplicate_messages`: if `message`
equals `last_message` the send is skipped with a debug log; otherwise the
wrapped function runs (which never raises) and `last_message` is assigned
`message` afterwards — also when the underlying send failed, since the
failure was already caught inside the wrapped function. -/
def send_message (sendOk : Bool) (last : Option String) (message : String) :
    SendResult :=
  if last = some message then
    ⟨last, 0, [⟨.debug, ("Повторное сообщение не будет отправлено: " ++ message)⟩]⟩
  else
    ⟨some message, 1, send_message_raw sendOk message⟩

/-- The observable outcome of the single `requests.get` call of one fetch:
either an HTTP response (status code, body text, decoded JSON) or a
network-level `requests.exceptions.RequestException`. -/
inductive HttpOutcome where
  | response (status : Nat) (body : String) (json : Value)
  | netError (detail : String)
deriving Repr

/-- One HTTP request issued to the endpoint; only the `from_date` query
parameter varies. -/
structure Request where
  from_date : Int
deriving Repr

/-- Result of `get_api_answer`: the returned payload or raised exception,
the logs, and the list of requests actually issued. -/
structure FetchResult where
  result : Except Err Value
  logs : Logs
  requests : List Request
deriving Repr

/-- `get_api_answer`: issues exactly one request; a non-200 status is
logged with status code and body and raised as `APIRequestError`; a
network-level failure is caught and re-raised as `APIRequestError`; a 200
response returns the decoded JSON. -/
def get_api_answer (timestamp : Int) (outcome : HttpOutcome) : FetchResult :=
  match outcome with
  | .response status body json =>
    if status ≠ 200 then
      ⟨.error (.apiRequestError "Ошибка при запросе к API Practicum"),
       [⟨.error, ("Ошибка при запросе к API Practicum: " ++ toString status ++ " - " ++ body)⟩],
       [⟨timestamp⟩]⟩
    else
      ⟨.ok json, [⟨.info, "API ответ получен"⟩], [⟨timestamp⟩]⟩
  | .netError detail =>
    ⟨.error (.apiRequestError "Ошибка при запросе к API Practicum"),
     [⟨.error, ("Ошибка при запросе к API Practicum: " ++ detail)⟩],
     [⟨timestamp⟩]⟩

/-- Result of `check_response`: the extracted record (`none` for an empty
`homeworks` list) or raised exception, plus the logs. -/
structure ExtractResult where
  result : Except Err (Option Value)
  logs : Logs
deriving Repr

/-- `check_response`: raises `TypeError` when the payload is not a dict,
`KeyError` when `homeworks` is absent, `TypeError` when it is not a list;
returns `None` with an info log for an empty list, else the first
element. -/
def check_response (response : Value) : ExtractResult :=
  match response with
  | .dict kvs =>
    match lookupKey kvs "homeworks" with
    | none =>
      ⟨.error (.keyError "Ответ API Practicum не содержит ключа \"homeworks\""), []⟩
    | some hws =>
      match hws with
      | .list [] =>
        ⟨.ok none, [⟨.info, "Ответ API Practicum не содержит информации о работах"⟩]⟩
      | .list (x :: _) => ⟨.ok (some x), []⟩
      | _ =>
        ⟨.error (.typeError
          "Ответ API Practicum содержит информацию о работах, но это не список"), []⟩
  | _ => ⟨.error (.typeError "Ответ API Practicum не является словарем"), []⟩

/-- Single-quote character, used by the Python `repr` of strings. -/
def sq : String := (Char.ofNat 39).toString

mutual

/-- Python `repr` of a modelled value (as `str()` delegates to for
containers); string escaping inside `repr` is elided. -/
def pyRepr : Value → String
  | .str s => sq ++ s ++ sq
  | .int n => toString n
  | .bool b => if b then "True" else "False"
  | .null => "None"
  | .list xs => "[" ++ String.intercalate ", " (pyReprList xs) ++ "]"
  | .dict kvs => "\x7b" ++ String.intercalate ", " (pyReprPairs kvs) ++ "\x7d"

def pyReprList : List Value → List String
  | [] => []
  | x :: xs => pyRepr x :: pyReprList xs

def pyReprPairs : List (String × Value) → List String
  | [] => []
  | (k, v) :: xs => (sq ++ k ++ sq ++ ": " ++ pyRepr v) :: pyReprPairs xs

end

/-- Python `str()` of a modelled value, as interpolated by f-strings. -/
def pyStr : Value → String
  | .str s => s
  | v => pyRepr v

/-- `needle` occurs as a contiguous sublist of the second argument. -/
def listIsInfix (needle : List Char) : List Char → Bool
  | [] => needle.isEmpty
  | c :: rest => needle.isPrefixOf (c :: rest) || listIsInfix needle rest

/-- Python substring test `needle in haystack` on strings. -/
def strContainsSub (haystack needle : String) : Bool :=
  listIsInfix needle.toList haystack.toList

/-- Python list membership `k in xs` for a string `k`: `==` holds only
against equal string elements. -/
def pyInList (k : String) (xs : List Value) : Bool :=
  xs.any fun x => match x with | .str s => s == k | _ => false

/-- Result of `parse_status`: the rendered message or raised exception,
plus the logs. -/
structure RenderResult where
  result : Except Err String
  logs : Logs
deriving Repr

/-- `parse_status`: raises `KeyError` when `homework_name` or `status` is
absent, `ValueError` (after an error log) when the status is not a key of
`HOMEWORK_VERDICTS`, and otherwise renders the fixed message template.  On
a non-dict argument the membership test or subscript raises the
corresponding built-in Python exception. -/
def parse_status (homework : Value) : RenderResult :=
  match homework with
  | .dict kvs =>
    match lookupKey kvs "homework_name" with
    | none =>
      ⟨.error (.keyError "Ключ \"homework_name\" не найден в ответе API Practicum"), []⟩
    | some nameVal =>
      match lookupKey kvs "status" with
      | none =>
        ⟨.error (.keyError "Ключ \"status\" не найден в ответе API Practicum"), []⟩
      | some statusVal =>
        match statusVal with
        | .str s =>
          match lookupVerdict s with
          | none =>
            ⟨.error (.valueError ("Неожиданный статус работы: " ++ s)),
             [⟨.error, ("Неожиданный статус работы: " ++ s)⟩]⟩
          | some verdict =>
            ⟨.ok ("Изменился статус проверки работы \"" ++ pyStr nameVal ++ "\". " ++ verdict), []⟩
        | .list _ => ⟨.error (.typeError "unhashable type"), []⟩
        | .dict _ => ⟨.error (.typeError "unhashable type"), []⟩
        | v =>
          let vs := pyStr v
          ⟨.error (.valueError ("Неожиданный статус работы: " ++ vs)),
           [⟨.error, ("Неожиданный статус работы: " ++ vs)⟩]⟩
  | .list xs =>
    if pyInList "homework_name" xs then
      ⟨.error (.typeError "list indices must be integers or slices, not str"), []⟩
    else
      ⟨.error (.keyError "Ключ \"homework_name\" не найден в ответе API Practicum"), []⟩
  | .str s =>
    if strContainsSub s "homework_name" then
      ⟨.error (.typeError "string indices must be integers"), []⟩
    else
      ⟨.error (.keyError "Ключ \"homework_name\" не найден в ответе API Practicum"), []⟩
  | _ => ⟨.error (.typeError "argument is not iterable"), []⟩

/-- The first `except` clause of `main`'s loop body
(`except exceptions.HomeworkStatusError`): composes the error message,
logs it and sends it through the deduplicating gate. -/
def handle_status_error (sendOk : Bool) (last : Option String) (e : Err) :
    SendResult :=
  let etext := Err.text e
  let message := "Ошибка получения статуса ДЗ: " ++ etext
  let sr := send_message sendOk last message
  ⟨sr.last, sr.sends, ⟨.error, message⟩ :: sr.logs⟩

/-- The second, catch-all `except` clause of `main`'s loop body
(`except Exception`). -/
def handle_any_error (sendOk : Bool) (last : Option String) (e : Err) :
    SendResult :=
  let etext := Err.text e
  let message := "Неизвестная ошибка: " ++ etext
  let sr := send_message sendOk last message
  ⟨sr.last, sr.sends, ⟨.error, message⟩ :: sr.logs⟩

/-- The `finally` log emitted before the fixed sleep of every cycle. -/
def sleep_log : LogEntry :=
  ⟨.info, ("Ожидание " ++ toString RETRY_PERIOD ++ " секунд до следующего запроса")⟩

/-- Everything observable about one iteration of `main`'s loop body: the
requests issued, the deduplication state after the iteration, the number of
underlying send invocations, and the logs. -/
structure CycleTrace where
  requests : List Request
  last : Option String
  sends : Nat
  logs : Logs
deriving Repr

/-- One iteration of `main`'s `while True` body.  A `.error` result would
be an exception escaping the iteration; the two `except` clauses route
every raised exception kind to a normal `.ok` outcome, and the `finally`
log precedes the sleep on every path. -/
def one_cycle (timestamp : Int) (outcome : HttpOutcome) (sendOk : Bool)
    (last : Option String) : Except Err CycleTrace :=
  let fr := get_api_answer timestamp outcome
  let tried : Except Err (Option String × Nat) × Logs :=
    match fr.result with
    | .error e => (.error e, fr.logs)
    | .ok response =>
      let er := check_response response
      match er.result with
      | .error e => (.error e, fr.logs ++ er.logs)
      | .ok hw? =>
        match hw? with
        | some hw =>
          if truthy hw then
            let rr := parse_status hw
            match rr.result with
            | .error e => (.error e, fr.logs ++ er.logs ++ rr.logs)
            | .ok message =>
              let sr := send_message sendOk last message
              (.ok (sr.last, sr.sends), fr.logs ++ er.logs ++ rr.logs ++ sr.logs)
          else
            (.ok (last, 0), fr.logs ++ er.logs ++ [⟨.debug, "Пока новых работ нет"⟩])
        | none =>
          (.ok (last, 0), fr.logs ++ er.logs ++ [⟨.debug, "Пока новых работ нет"⟩])
  match tried with
  | (.ok (last2, sends), logs) =>
    .ok ⟨fr.requests, last2, sends, logs ++ [sleep_log]⟩
  | (.error e, logs) =>
    if Err.isHomeworkStatusError e then
      let sr := handle_status_error sendOk last e
      .ok ⟨fr.requests, sr.last, sr.sends, logs ++ sr.logs ++ [sleep_log]⟩
    else
      let sr := handle_any_error sendOk last e
      .ok ⟨fr.requests, sr.last, sr.sends, logs ++ sr.logs ++ [sleep_log]⟩

/-- The environment of one cycle: the outcome of its single HTTP fetch and
whether the messaging client would accept a send. -/
structure CycleInput where
  outcome : HttpOutcome
  sendOk : Bool
deriving Repr

/-- `main`'s loop, run for one externally supplied cycle environment after
another.  `timestamp` is never reassigned in the source, so the same value
is passed to every fetch.  If an iteration let an exception escape
(`.error`), the loop would abort and the remaining inputs would be
dropped. -/
def run_cycles (timestamp : Int) (last : Option String) :
    List CycleInput → List CycleTrace
  | [] => []
  | i :: rest =>
    match one_cycle timestamp i.outcome i.sendOk last with
    | .ok t => t :: run_cycles timestamp t.last rest
    | .error _ => []

/-- Observable outcome of `main`: either the startup credential check
fails, with its exit code and critical log and with no cycle run, or the
loop runs over all supplied cycle environments. -/
structure MainResult where
  exitCode : Option Nat
  startupLogs : Logs
  traces : List CycleTrace
deriving Repr

/-- `main`: validates the credentials once, before any network call;
on success computes `timestamp = now - RETRY_PERIOD` once and enters the
loop with a fresh deduplication gate (`last_message = None`). -/
def main_model (cfg : Config) (now : Int) (inputs : List CycleInput) :
    MainResult :=
  match check_tokens cfg with
  | some (logs, code) => ⟨some code, logs, []⟩
  | none => ⟨none, [], run_cycles (now - RETRY_PERIOD) none inputs⟩

section Lemmas

/-- `get_api_answer` issues exactly the one request carrying its cursor. -/
theorem get_api_answer_requests (ts : Int) (o : HttpOutcome) :
    (get_api_answer ts o).requests = [⟨ts⟩] := by
  cases o with
  | response status body json =>
    simp only [get_api_answer]
    split <;> rfl
  | netError detail => rfl

/-- Every loop iteration finishes normally, issues exactly one request with
its cursor, and ends its logs with the pre-sleep log of the `finally`
block. -/
theorem one_cycle_isOk (ts : Int) (o : HttpOutcome) (sOk : Bool)
    (l : Option String) :
    ∃ t : CycleTrace, one_cycle ts o sOk l = Except.ok t ∧
      t.requests = [⟨ts⟩] ∧ t.logs.getLast? = some sleep_log := by
  simp only [one_cycle]
  split
  · exact ⟨_, rfl, get_api_answer_requests ts o, by simp⟩
  · split
    · exact ⟨_, rfl, get_api_answer_requests ts o, by simp⟩
    · exact ⟨_, rfl, get_api_answer_requests ts o, by simp⟩

/-- The loop processes every supplied cycle environment. -/
theorem run_cycles_length (ts : Int) :
    ∀ (inputs : List CycleInput) (l : Option String),
      (run_cycles ts l inputs).length = inputs.length := by
  intro inputs
  induction inputs with
  | nil => intro l; rfl
  | cons i rest ih =>
    intro l
    obtain ⟨t, ht, -, -⟩ := one_cycle_isOk ts i.outcome i.sendOk l
    simp [run_cycles, ht, ih]

/-- Every trace of the loop carries the single request with the loop's
fixed cursor. -/
theorem run_cycles_requests (ts : Int) :
    ∀ (inputs : List CycleInput) (l : Option String) (t : CycleTrace),
      t ∈ run_cycles ts l inputs → t.requests = [⟨ts⟩] := by
  intro inputs
  induction inputs with
  | nil => intro l t ht; simp [run_cycles] at ht
  | cons i rest ih =>
    intro l t ht
    obtain ⟨t0, h0, hreq, -⟩ := one_cycle_isOk ts i.outcome i.sendOk l
    rw [run_cycles, h0] at ht
    rcases List.mem_cons.mp ht with h | h
    · exact h ▸ hreq
    · exact ih t0.last t h

end Lemmas

/-- C1: no exception raised by the fetch, extract, render or deliver
stages escapes a poll-cycle iteration: for every fetch outcome, messaging
outcome and gate state, the loop body finishes normally (`Except.ok`) and
its last log entry is the fixed pre-sleep log, i.e. the cycle always
proceeds to the sleep step. -/
theorem cycle_never_escapes (ts : Int) (o : HttpOutcome) (sOk : Bool)
    (l : Option String) :
    ∃ t : CycleTrace, one_cycle ts o sOk l = Except.ok t ∧
      t.logs.getLast? = some sleep_log := by
  obtain ⟨t, ht, -, hlast⟩ := one_cycle_isOk ts o sOk l
  exact ⟨t, ht, hlast⟩

/-- C9: the cursor is computed once at startup as `now - RETRY_PERIOD` and
never reassigned: every cycle of a run, whatever its outcome, issues its
single fetch request with exactly that cursor value. -/
theorem cursor_never_advances (cfg : Config) (now : Int)
    (inputs : List CycleInput) (t : CycleTrace)
    (ht : t ∈ (main_model cfg now inputs).traces) :
    t.requests = [⟨now - RETRY_PERIOD⟩] := by
  unfold main_model at ht
  rcases h : check_tokens cfg with - | p
  · rw [h] at ht
    exact run_cycles_requests (now - RETRY_PERIOD) inputs none t ht
  · rw [h] at ht
    simp at ht

/-- Witness for C9: a concrete one-cycle run whose trace carries the
cursor `1000 - 600`. -/
theorem cursor_never_advances_witness :
    (CycleTrace.mk [⟨400⟩] none 0
      [⟨.info, "API ответ получен"⟩,
       ⟨.info, "Ответ API Practicum не содержит информации о работах"⟩,
       ⟨.debug, "Пока новых работ нет"⟩, sleep_log]).requests = [⟨400⟩] :=
  cursor_never_advances ⟨"a", "b", "c"⟩ 1000
    [⟨.response 200 "" (.dict [("homeworks", .list [])]), true⟩] _
    (List.Mem.head _)

/-- C8: a missing (empty) credential makes the process exit with a
non-zero status and a critical diagnostic with no cycle (hence no network
call) run; with all three credentials present the check never fires again:
the loop processes every supplied cycle environment. -/
theorem startup_token_check (cfg : Config) (now : Int)
    (inputs : List CycleInput) :
    (tokensOk cfg = false →
      (main_model cfg now inputs).exitCode = some 1 ∧
      (main_model cfg now inputs).traces = [] ∧
      ⟨.critical, "Необходимо указать все переменные окружения"⟩ ∈
        (main_model cfg now inputs).startupLogs) ∧
    (tokensOk cfg = true →
      (main_model cfg now inputs).exitCode = none ∧
      (main_model cfg now inputs).traces.length = inputs.length) := by
  constructor
  · intro h
    simp [main_model, check_tokens, h]
  · intro h
    simp [main_model, check_tokens, h, run_cycles_length]

/-- Witness for C8: with the messaging credential empty the model exits
with code 1 and runs no cycle; with all credentials present it does not
exit. -/
theorem startup_token_check_witness :
    ((main_model ⟨"a", "", "c"⟩ 0 [⟨.netError "x", true⟩]).exitCode = some 1 ∧
      (main_model ⟨"a", "", "c"⟩ 0 [⟨.netError "x", true⟩]).traces = []) ∧
    (main_model ⟨"x", "y", "z"⟩ 0 []).exitCode = none :=
  ⟨⟨((startup_token_check ⟨"a", "", "c"⟩ 0 [⟨.netError "x", true⟩]).1 rfl).1,
    ((startup_token_check ⟨"a", "", "c"⟩ 0 [⟨.netError "x", true⟩]).1 rfl).2.1⟩,
   ((startup_token_check ⟨"x", "y", "z"⟩ 0 []).2 rfl).1⟩

/-- Counterexample for C2: with a fresh gate (`last_message = None`) and a
failing messaging client, delivering `"hello"` logs the delivery error but
does NOT leave `LastSentMessage` unchanged — it is updated to the failed
text, because the failure is caught inside the wrapped function before the
decorator assigns `last_message = message`. -/
theorem failed_send_updates_last_counterexample :
    (send_message false none "hello").last = some "hello" ∧
    (send_message false none "hello").last ≠ none ∧
    ⟨.error, "Ошибка отправки сообщения в Telegram"⟩ ∈
      (send_message false none "hello").logs := by
  refine ⟨rfl, by simp [send_message, send_message_raw], ?_⟩
  simp [send_message, send_message_raw]

/-- C2 (amended): on a messaging-API-specific failure the error is logged
and `LastSentMessage` is nonetheless updated to the attempted text; the
gate records the text as sent on every actual delivery attempt, successful
or failed. -/
theorem failed_send_logs_and_updates_last (last : Option String)
    (msg : String) (h : last ≠ some msg) :
    (send_message false last msg).last = some msg ∧
    (send_message false last msg).sends = 1 ∧
    ⟨.error, "Ошибка отправки сообщения в Telegram"⟩ ∈
      (send_message false last msg).logs := by
  simp [send_message, send_message_raw, h]

/-- Witness for the amended C2 at a concrete failing delivery. -/
theorem failed_send_logs_and_updates_last_witness :
    (send_message false (some "old") "new").last = some "new" ∧
    (send_message false (some "old") "new").sends = 1 ∧
    ⟨.error, "Ошибка отправки сообщения в Telegram"⟩ ∈
      (send_message false (some "old") "new").logs :=
  failed_send_logs_and_updates_last (some "old") "new" (by simp)

/-- C3: starting from a fresh gate with all sends succeeding, delivering
the same text twice performs exactly one underlying send, and delivering
text `A` then text `B` with `A ≠ B` performs exactly two. -/
theorem deliver_dedup_counts (t A B : String) (hAB : A ≠ B) :
    (send_message true none t).sends
      + (send_message true (send_message true none t).last t).sends = 1 ∧
    (send_message true none A).sends
      + (send_message true (send_message true none A).last B).sends = 2 := by
  constructor
  · simp [send_message, send_message_raw]
  · simp [send_message, send_message_raw, hAB]

/-- Witness for C3 at concrete texts. -/
theorem deliver_dedup_counts_witness :
    (send_message true none "x").sends
      + (send_message true (send_message true none "x").last "x").sends = 1 ∧
    (send_message true none "a").sends
      + (send_message true (send_message true none "a").last "b").sends = 2 :=
  deliver_dedup_counts "x" "a" "b" (by decide)

/-- C4: a record with a `homework_name` field and a status bound in
`HOMEWORK_VERDICTS` renders to the fixed template containing the name and
the exact verdict; the verdict set is exactly
`{reviewing, approved, rejected}`; the concrete `hw1`/`approved` record
renders to the exact spec string; a string status outside the set raises
the `ValueError`-kind error. -/
theorem render_statuses (kvs : List (String × Value)) (name s : String)
    (hname : lookupKey kvs "homework_name" = some (.str name))
    (hstatus : lookupKey kvs "status" = some (.str s)) :
    (∀ verdict, lookupVerdict s = some verdict →
      (parse_status (.dict kvs)).result =
        .ok ("Изменился статус проверки работы \"" ++ name ++ "\". " ++ verdict)) ∧
    (lookupVerdict s = none →
      (parse_status (.dict kvs)).result =
        .error (.valueError ("Неожиданный статус работы: " ++ s))) ∧
    (∀ u : String, (lookupVerdict u).isSome ↔
      (u = "reviewing" ∨ u = "approved" ∨ u = "rejected")) ∧
    (parse_status (.dict
        [("homework_name", .str "hw1"), ("status", .str "approved")])).result =
      .ok "Изменился статус проверки работы \"hw1\". Работа проверена: ревьюеру всё понравилось. Ура!" := by
  refine ⟨?_, ?_, ?_, rfl⟩
  · intro verdict hv
    simp [parse_status, hname, hstatus, hv, pyStr]
  · intro hv
    simp [parse_status, hname, hstatus, hv]
  · intro u
    by_cases h1 : u = "approved"
    · simp [lookupVerdict, HOMEWORK_VERDICTS, h1]
    · by_cases h2 : u = "reviewing"
      · simp [lookupVerdict, HOMEWORK_VERDICTS, h2]
      · by_cases h3 : u = "rejected"
        · simp [lookupVerdict, HOMEWORK_VERDICTS, h3]
        · have e1 : ("approved" == u) = false :=
            beq_eq_false_iff_ne.mpr (Ne.symm h1)
          have e2 : ("reviewing" == u) = false :=
            beq_eq_false_iff_ne.mpr (Ne.symm h2)
          have e3 : ("rejected" == u) = false :=
            beq_eq_false_iff_ne.mpr (Ne.symm h3)
          simp [lookupVerdict, HOMEWORK_VERDICTS, List.find?, e1, e2, e3,
            h1, h2, h3]

/-- Witness for C4 at the concrete `hw1`/`approved` record and at an
unknown status. -/
theorem render_statuses_witness :
    (parse_status (.dict
        [("homework_name", .str "hw1"), ("status", .str "approved")])).result =
      .ok ("Изменился статус проверки работы \"" ++ "hw1" ++ "\". "
            ++ "Работа проверена: ревьюеру всё понравилось. Ура!") ∧
    (parse_status (.dict
        [("homework_name", .str "hw1"), ("status", .str "done")])).result =
      .error (.valueError ("Неожиданный статус работы: " ++ "done")) :=
  ⟨(render_statuses [("homework_name", .str "hw1"), ("status", .str "approved")]
      "hw1" "approved" rfl rfl).1
      "Работа проверена: ревьюеру всё понравилось. Ура!" rfl,
   (render_statuses [("homework_name", .str "hw1"), ("status", .str "done")]
      "hw1" "done" rfl rfl).2.1 rfl⟩

/-- C5: `check_response` raises exactly when the payload is not a dict, or
has no `homeworks` key, or binds `homeworks` to a non-list; equivalently,
it returns normally exactly on dicts whose `homeworks` key holds a list. -/
theorem extract_shape_errors (v : Value) :
    (∃ e, (check_response v).result = .error e) ↔
      ¬ ∃ kvs xs, v = .dict kvs ∧
        lookupKey kvs "homeworks" = some (.list xs) := by
  cases v with
  | str s => simp [check_response]
  | int n => simp [check_response]
  | bool b => simp [check_response]
  | list xs => simp [check_response]
  | null => simp [check_response]
  | dict kvs =>
    rcases h : lookupKey kvs "homeworks" with - | hws
    · simp [check_response, h]
    · cases hws with
      | list xs =>
        cases xs with
        | nil => simp [check_response, h]
        | cons x rest => simp [check_response, h]
      | str s => simp [check_response, h]
      | int n => simp [check_response, h]
      | bool b => simp [check_response, h]
      | dict kvs2 => simp [check_response, h]
      | null => simp [check_response, h]

/-- C6: for a dict payload binding `homeworks` to a list: an empty list
yields `None` with the informational log and a cycle on such a payload
attempts no send; a non-empty list yields exactly its first element. -/
theorem extract_first_element (kvs : List (String × Value))
    (xs : List Value) (h : lookupKey kvs "homeworks" = some (.list xs)) :
    (xs = [] →
      (check_response (.dict kvs)).result = .ok none ∧
      (check_response (.dict kvs)).logs =
        [⟨.info, "Ответ API Practicum не содержит информации о работах"⟩] ∧
      ∀ (ts : Int) (body : String) (sOk : Bool) (last : Option String),
        ∃ t : CycleTrace,
          one_cycle ts (.response 200 body (.dict kvs)) sOk last = .ok t ∧
          t.sends = 0 ∧ t.last = last) ∧
    (∀ x rest, xs = x :: rest →
      (check_response (.dict kvs)).result = .ok (some x)) := by
  constructor
  · intro hxs
    subst hxs
    refine ⟨by simp [check_response, h], by simp [check_response, h], ?_⟩
    intro ts body sOk last
    simp [one_cycle, get_api_answer, check_response, h]
  · intro x rest hxs
    subst hxs
    simp [check_response, h]

/-- Witness for C6 at a concrete empty and non-empty `homeworks` list. -/
theorem extract_first_element_witness :
    (check_response (.dict [("homeworks", .list [])])).result = .ok none ∧
    (check_response (.dict [("homeworks", .list [.str "r", .null])])).result =
      .ok (some (.str "r")) :=
  ⟨((extract_first_element [("homeworks", .list [])] [] rfl).1 rfl).1,
   (extract_first_element [("homeworks", .list [.str "r", .null])]
      [.str "r", .null] rfl).2 (.str "r") [.null] rfl⟩

/-- C7: a non-200 response is surfaced as `APIRequestError` with an error
log carrying status code and body; a network-level failure is surfaced the
same way; a 200 response returns the decoded payload; and every fetch
issues exactly one request (no retry inside the component). -/
theorem fetch_classification (ts : Int) (status : Nat) (body : String)
    (json : Value) (detail : String) (h : status ≠ 200) :
    get_api_answer ts (.response status body json) =
      ⟨.error (.apiRequestError "Ошибка при запросе к API Practicum"),
       [⟨.error, "Ошибка при запросе к API Practicum: "
                   ++ toString status ++ " - " ++ body⟩],
       [⟨ts⟩]⟩ ∧
    get_api_answer ts (.netError detail) =
      ⟨.error (.apiRequestError "Ошибка при запросе к API Practicum"),
       [⟨.error, "Ошибка при запросе к API Practicum: " ++ detail⟩],
       [⟨ts⟩]⟩ ∧
    get_api_answer ts (.response 200 body json) =
      ⟨.ok json, [⟨.info, "API ответ получен"⟩], [⟨ts⟩]⟩ ∧
    ∀ o : HttpOutcome, (get_api_answer ts o).requests.length = 1 := by
  refine ⟨by simp [get_api_answer, h], rfl, by simp [get_api_answer], ?_⟩
  intro o
  rw [get_api_answer_requests]
  rfl

/-- Witness for C7 at a concrete 503 response. -/
theorem fetch_classification_witness :
    get_api_answer 0 (.response 503 "Service Unavailable" .null) =
      ⟨.error (.apiRequestError "Ошибка при запросе к API Practicum"),
       [⟨.error, "Ошибка при запросе к API Practicum: "
                   ++ toString (503 : Nat) ++ " - " ++ "Service Unavailable"⟩],
       [⟨0⟩]⟩ :=
  (fetch_classification 0 503 "Service Unavailable" .null "timeout"
    (by decide)).1

/-- C10: when the first element of a non-empty `homeworks` list is an
empty mapping, the extractor does return that element as the record, yet
the controller's truthiness test skips the render/deliver branch: the
cycle finishes normally with no send, an unchanged gate, and only the
fetch log, the "no new homework" debug log and the pre-sleep log. -/
theorem empty_record_skips_render (kvs : List (String × Value))
    (rest : List Value) (ts : Int) (body : String) (sOk : Bool)
    (last : Option String)
    (h : lookupKey kvs "homeworks" = some (.list (.dict [] :: rest))) :
    (check_response (.dict kvs)).result = .ok (some (.dict [])) ∧
    one_cycle ts (.response 200 body (.dict kvs)) sOk last =
      .ok ⟨[⟨ts⟩], last, 0,
        [⟨.info, "API ответ получен"⟩, ⟨.debug, "Пока новых работ нет"⟩,
         sleep_log]⟩ := by
  constructor
  · simp [check_response, h]
  · simp [one_cycle, get_api_answer, check_response, h, truthy]

/-- Witness for C10 at a concrete payload whose only record is `{}`. -/
theorem empty_record_skips_render_witness :
    one_cycle 5 (.response 200 "" (.dict [("homeworks", .list [.dict []])]))
        true none =
      .ok ⟨[⟨5⟩], none, 0,
        [⟨.info, "API ответ получен"⟩, ⟨.debug, "Пока новых работ нет"⟩,
         sleep_log]⟩ :=
  (empty_record_skips_render [("homeworks", .list [.dict []])] [] 5 "" true
    none rfl).2

end Homework
